import Mathlib

/-!
Verification development for the MEDSHOP pharmacy storefront
(`medicines/views.py`, `medicines/views_admin.py`, `medicines/models.py`).

The Django views and model methods relevant to the cart, checkout, order
tracking, admin status update and site-settings singleton are embedded as
executable Lean functions.  Money values (Django `DecimalField(10,2)`) are
embedded as exact rationals; database tables are embedded as lists of rows;
the guest session cart is the association list
`medicine-id ↦ {quantity, name, price, image}` that the views keep in
`request.session['cart']`.
-/

namespace Medshop

/-- Exact decimal money amounts (`DecimalField(max_digits=10, decimal_places=2)`),
embedded by their value in hundredths of a rupee: every such decimal is
`n/100` for an integer `n`, and the only operations the flow performs —
addition and multiplication by an integer quantity — are exact and stay in
hundredths, so the encoding is faithful. -/
abbrev Money := ℤ

/-- `medicines.models.Medicine` — the fields the cart/checkout flow reads. -/
structure Medicine where
  id : Nat
  name : String
  mrp : Money
  price : Money
  stock_quantity : Nat
  prescription_type : String
  image : Option String
  is_active : Bool
deriving Repr, DecidableEq

/-- The `Medicine` table. -/
abbrev Catalog := List Medicine

/-- `Medicine.objects.get(id=i)` — `none` embeds `Medicine.DoesNotExist`. -/
def findMedicine (cat : Catalog) (i : Nat) : Option Medicine :=
  cat.find? (fun m => m.id == i)

/-- `get_object_or_404(Medicine, id=i, is_active=True)` — `none` embeds the 404. -/
def findActiveMedicine (cat : Catalog) (i : Nat) : Option Medicine :=
  cat.find? (fun m => m.id == i && m.is_active)

/-- A medicine's current selling price, defaulting to 0 for an id that is not
in the table.  Call sites always guard existence (by foreign key integrity for
database cart rows, or by an explicit `find?` for session entries). -/
def medPriceD (cat : Catalog) (i : Nat) : Money :=
  ((findMedicine cat i).map Medicine.price).getD 0

/-- `medicines.models.CartItem`: a row of the authenticated user's database
cart (`cart` foreign key left implicit: a value of type `List CartItem` is the
row set of one user's cart). -/
structure CartItem where
  id : Nat
  medicineId : Nat
  quantity : Nat
deriving Repr, DecidableEq

/-- `CartItem.get_total_price`: `self.quantity * self.medicine.price`. -/
def cartItemTotal (cat : Catalog) (it : CartItem) : Money :=
  (it.quantity : Money) * medPriceD cat it.medicineId

/-- `Cart.get_total_price`: `sum(item.get_total_price() for item in self.items.all())`. -/
def cartTotalPrice (cat : Catalog) (cart : List CartItem) : Money :=
  (cart.map (cartItemTotal cat)).sum

/-- One value of `request.session['cart']`: the snapshot dict
`{'quantity': …, 'name': …, 'price': str(medicine.price), 'image': …}` stored
by `add_to_cart` for a guest.  The `price` string is embedded by its exact
decimal value. -/
structure SessionItem where
  quantity : Int
  name : String
  price : Money
  image : String
deriving Repr, DecidableEq

/-- The guest session cart: `request.session['cart']`, a dict keyed by the
medicine id (`str(medicine_id)`), embedded as an insertion-ordered
association list keyed by the numeric id. -/
abbrev SessionCart := List (Nat × SessionItem)

/-- Fresh primary key for a new `CartItem` row (auto-increment). -/
def freshItemId (cart : List CartItem) : Nat :=
  (cart.foldr (fun it a => max it.id a) 0) + 1

/-- `add_to_cart`, authenticated branch (views.py:63-73): look the medicine up
with `get_object_or_404(… is_active=True)` (`none` = 404), then
`CartItem.objects.get_or_create(cart=cart, medicine=medicine,
defaults={'quantity': 1})`; on an existing row `quantity += 1`. -/
def add_to_cart_auth (cat : Catalog) (cart : List CartItem) (mid : Nat) :
    Option (List CartItem) :=
  match findActiveMedicine cat mid with
  | none => none
  | some _ =>
      match cart.find? (fun it => it.medicineId == mid) with
      | some _ =>
          some (cart.map (fun it =>
            if it.medicineId == mid then { it with quantity := it.quantity + 1 } else it))
      | none => some (cart ++ [⟨freshItemId cart, mid, 1⟩])

/-- `add_to_cart`, guest branch (views.py:74-88): on a present key
`cart[id]['quantity'] += 1`; otherwise insert the snapshot dict at quantity 1
(`image` is `medicine.image.url if medicine.image else ''`). -/
def add_to_cart_guest (cat : Catalog) (scart : SessionCart) (mid : Nat) :
    Option SessionCart :=
  match findActiveMedicine cat mid with
  | none => none
  | some m =>
      if (scart.find? (fun e => e.fst == mid)).isSome then
        some (scart.map (fun e =>
          if e.fst == mid then (e.fst, { e.snd with quantity := e.snd.quantity + 1 }) else e))
      else
        some (scart ++ [(mid, ⟨1, m.name, m.price, m.image.getD ""⟩)])

/-- `add_to_cart_auth` iterated `n` times for the same medicine. -/
def addN_auth (cat : Catalog) (mid : Nat) : Nat → List CartItem → Option (List CartItem)
  | 0, cart => some cart
  | n + 1, cart =>
      match addN_auth cat mid n cart with
      | none => none
      | some c => add_to_cart_auth cat c mid

/-- `add_to_cart_guest` iterated `n` times for the same medicine. -/
def addN_guest (cat : Catalog) (mid : Nat) : Nat → SessionCart → Option SessionCart
  | 0, scart => some scart
  | n + 1, scart =>
      match addN_guest cat mid n scart with
      | none => none
      | some c => add_to_cart_guest cat c mid

/-- `update_cart_item`, authenticated branch (views.py:133-139):
`get_object_or_404(CartItem, id=item_id, cart__user=…)` (`none` = 404); a
positive posted quantity is written to the row, otherwise the row is
deleted. -/
def update_cart_item_auth (cart : List CartItem) (itemId : Nat) (q : Int) :
    Option (List CartItem) :=
  match cart.find? (fun it => it.id == itemId) with
  | none => none
  | some _ =>
      if q > 0 then
        some (cart.map (fun it =>
          if it.id == itemId then { it with quantity := q.toNat } else it))
      else
        some (cart.filter (fun it => !(it.id == itemId)))

/-- `update_cart_item`, guest branch (views.py:140-150): only acts when the
key is present; positive quantity overwrites, otherwise `del cart[key]`. -/
def update_cart_item_guest (scart : SessionCart) (itemId : Nat) (q : Int) :
    SessionCart :=
  if (scart.find? (fun e => e.fst == itemId)).isSome then
    if q > 0 then
      scart.map (fun e =>
        if e.fst == itemId then (e.fst, { e.snd with quantity := q }) else e)
    else
      scart.filter (fun e => !(e.fst == itemId))
  else scart

/-- `remove_from_cart`, authenticated branch (views.py:156-158):
`get_object_or_404(CartItem, id=item_id, cart__user=…)` then delete; an absent
row yields a 404 response (`none`). -/
def remove_from_cart_auth (cart : List CartItem) (itemId : Nat) :
    Option (List CartItem) :=
  match cart.find? (fun it => it.id == itemId) with
  | none => none
  | some _ => some (cart.filter (fun it => !(it.id == itemId)))

/-- `remove_from_cart`, guest branch (views.py:159-166): `del cart[key]` only
when the key is present, otherwise the session is untouched. -/
def remove_from_cart_guest (scart : SessionCart) (itemId : Nat) : SessionCart :=
  if (scart.find? (fun e => e.fst == itemId)).isSome then
    scart.filter (fun e => !(e.fst == itemId))
  else scart

/-- The guest cart resolved against the live `Medicine` table, as both
`cart_detail` (views.py:108-120) and `checkout` (views.py:185-196) do: each
session entry is looked up with `Medicine.objects.get(id=int(medicine_id))`
and entries whose medicine no longer exists are skipped
(`except Medicine.DoesNotExist: pass`). -/
def resolveSessionCart (cat : Catalog) (scart : SessionCart) :
    List (Medicine × Int) :=
  scart.filterMap (fun e => (findMedicine cat e.fst).map (fun m => (m, e.snd.quantity)))

/-- Guest cart total: `total += medicine.price * item['quantity']` over the
resolved entries (views.py:118 and views.py:194) — the live price, not the
session snapshot. -/
def guest_cart_total (cat : Catalog) (scart : SessionCart) : Money :=
  ((resolveSessionCart cat scart).map (fun p => p.1.price * (p.2 : Money))).sum

/-- `cart_detail`, authenticated branch (views.py:98-105): the cart's total by
`Cart.get_total_price`, or 0 when the user has no cart row
(`Cart.DoesNotExist`). -/
def cart_detail_total_auth (cat : Catalog) (cart : Option (List CartItem)) : Money :=
  match cart with
  | none => 0
  | some items => cartTotalPrice cat items

/-- `medicines.models.Order` — the fields the checkout/tracking/admin flow
touches.  `created_at` is the auto-set creation timestamp, embedded as a
natural number so `order_by('-created_at')` is a total order. -/
structure Order where
  id : Nat
  userId : Option Nat
  total_amount : Money
  status : String
  shipping_address : String
  phone_number : String
  created_at : Nat
deriving Repr, DecidableEq

/-- `medicines.models.OrderItem`: `(order, medicine, quantity, price)` with
`price` the snapshot taken at order time. -/
structure OrderItem where
  orderId : Nat
  medicineId : Nat
  quantity : Int
  price : Money
deriving Repr, DecidableEq

/-- The database state the checkout flow reads and writes. -/
structure Store where
  catalog : Catalog
  orders : List Order
  orderItems : List OrderItem
deriving Repr, DecidableEq

/-- Fresh primary key for a new `Order` row (auto-increment). -/
def freshOrderId (orders : List Order) : Nat :=
  (orders.foldr (fun o a => max o.id a) 0) + 1

/-- Result of a checkout POST on the authenticated branch: the new database
state, the user's cart rows afterwards, and `placed = some oid` on success or
`none` when the empty-cart guard fired ("Your cart is empty!" + redirect). -/
structure AuthCheckoutResult where
  store : Store
  cart : List CartItem
  placed : Option Nat
deriving Repr, DecidableEq

/-- `checkout`, authenticated branch, POST (views.py:176-182, 198-200,
208-227): the cart rows and total are loaded (`Cart.get_total_price`), an
empty item list is rejected before any write; otherwise one `Order` row is
created (status defaults to `PENDING`), one `OrderItem` per cart row is
created with `price=cart_item.medicine.price`, and the cart rows are
deleted. -/
def checkout_auth (st : Store) (uid : Nat) (cart : List CartItem)
    (shipping_address phone_number : String) (now : Nat) : AuthCheckoutResult :=
  let total := cartTotalPrice st.catalog cart
  if cart.isEmpty then ⟨st, cart, none⟩
  else
    let oid := freshOrderId st.orders
    let order : Order :=
      ⟨oid, some uid, total, "PENDING", shipping_address, phone_number, now⟩
    let newItems := cart.map (fun it =>
      OrderItem.mk oid it.medicineId (it.quantity : Int) (medPriceD st.catalog it.medicineId))
    ⟨⟨st.catalog, st.orders ++ [order], st.orderItems ++ newItems⟩, [], some oid⟩

/-- Result of a checkout POST on the guest branch. -/
structure GuestCheckoutResult where
  store : Store
  sessionCart : SessionCart
  placed : Option Nat
deriving Repr, DecidableEq

/-- `checkout`, guest branch, POST (views.py:184-200, 228-253): the session
cart is resolved against the live `Medicine` table (missing ids skipped) and
an empty resolved list is rejected; otherwise one `Order` row is created with
`user=None`, the name/email concatenated into `shipping_address`, one
`OrderItem` per resolved session entry with `price=medicine.price`, and
`request.session['cart']` is reset to `{}`. -/
def checkout_guest (st : Store) (scart : SessionCart)
    (shipping_address phone_number customer_name customer_email : String)
    (now : Nat) : GuestCheckoutResult :=
  let resolved := resolveSessionCart st.catalog scart
  let total := guest_cart_total st.catalog scart
  if resolved.isEmpty then ⟨st, scart, none⟩
  else
    let oid := freshOrderId st.orders
    let order : Order :=
      ⟨oid, none, total, "PENDING",
        customer_name ++ "\n" ++ customer_email ++ "\n" ++ shipping_address,
        phone_number, now⟩
    let newItems := resolved.map (fun p =>
      OrderItem.mk oid p.1.id p.2 p.1.price)
    ⟨⟨st.catalog, st.orders ++ [order], st.orderItems ++ newItems⟩, [], some oid⟩

/-- `track_order`, phone-only branch (views.py:282-287):
`Order.objects.filter(phone_number=…).order_by('-created_at')`. -/
def track_by_phone (orders : List Order) (phone : String) : List Order :=
  List.insertionSort (fun a b => b.created_at ≤ a.created_at)
    (orders.filter (fun o => o.phone_number == phone))

instance : IsTotal Order (fun a b => b.created_at ≤ a.created_at) :=
  ⟨fun a b => Nat.le_total b.created_at a.created_at⟩

instance : IsTrans Order (fun a b => b.created_at ≤ a.created_at) :=
  ⟨fun _ _ _ hab hbc => le_trans hbc hab⟩

/-- `track_order`, phone-only branch with its error message: `if not orders:`
sets "No orders found with this phone number.". -/
def track_by_phone_view (orders : List Order) (phone : String) :
    List Order × Option String :=
  let res := track_by_phone orders phone
  (res, if res.isEmpty then some "No orders found with this phone number." else none)

/-- `track_order`, phone+id branch (views.py:288-294):
`Order.objects.get(id=int(order_id), phone_number=…)`, with
`Order.DoesNotExist` caught into a not-found error (`none`). -/
def track_specific (orders : List Order) (oid : Nat) (phone : String) :
    Option Order :=
  orders.find? (fun o => o.id == oid && o.phone_number == phone)

/-- `Order.STATUS_CHOICES` keys (models.py:98-104). -/
def STATUS_CHOICES : List String :=
  ["PENDING", "CONFIRMED", "SHIPPED", "DELIVERED", "CANCELLED"]

/-- `admin_order_detail` POST (views_admin.py:314-319): the posted status is
written iff it is one of the five valid choices, otherwise the order is left
untouched. -/
def admin_update_status (o : Order) (new_status : String) : Order :=
  if STATUS_CHOICES.contains new_status then { o with status := new_status } else o

/-- `medicines.models.SiteSettings` — `pk = none` is an unsaved instance. -/
structure SiteSettings where
  pk : Option Nat
  facebook_url : Option String
  instagram_url : Option String
  youtube_url : Option String
  twitter_url : Option String
  linkedin_url : Option String
  whatsapp_number : Option String
  website_url : Option String
deriving Repr, DecidableEq

/-- A settings instance with every field blank. -/
def blankSettings : SiteSettings :=
  ⟨none, none, none, none, none, none, none, none⟩

/-- The `SiteSettings` table. -/
abbrev SettingsTable := List SiteSettings

/-- Auto-increment primary key for an insert without explicit pk
(sqlite `max(rowid)+1`; 1 on an empty table). -/
def nextSettingsPk (tbl : SettingsTable) : Nat :=
  (tbl.foldr (fun r a => max (r.pk.getD 0) a) 0) + 1

/-- `SiteSettings.save` (models.py:165-169): `if not self.pk and
SiteSettings.objects.exists(): raise ValueError(…)`; otherwise the framework
save inserts a new row (pk unset) or writes the row with the instance's pk
(update when present, insert otherwise). -/
def siteSettingsSave (tbl : SettingsTable) (inst : SiteSettings) :
    Except String SettingsTable :=
  if inst.pk.isNone && !tbl.isEmpty then
    Except.error "Only one SiteSettings instance is allowed"
  else
    match inst.pk with
    | none => Except.ok (tbl ++ [{ inst with pk := some (nextSettingsPk tbl) }])
    | some k =>
        if tbl.any (fun r => r.pk == some k) then
          Except.ok (tbl.map (fun r => if r.pk == some k then inst else r))
        else Except.ok (tbl ++ [inst])

/-- `SiteSettings.get_settings` (models.py:171-175):
`cls.objects.get_or_create(pk=1)` — return the pk=1 row, creating it (through
`save` with pk already set, so the singleton guard does not fire) only when it
is absent. -/
def get_settings (tbl : SettingsTable) : SiteSettings × SettingsTable :=
  match tbl.find? (fun r => r.pk == some 1) with
  | some r => (r, tbl)
  | none =>
      let fresh := { blankSettings with pk := some 1 }
      (fresh, tbl ++ [fresh])

/-- The write operations the codebase performs on the `SiteSettings` table:
saving a brand-new instance (`save` on an unsaved object), saving an instance
previously fetched from the table (its pk is some existing row's pk), and
`get_settings`. -/
inductive SettingsOp where
  | saveNew (inst : SiteSettings)
  | saveFetched (inst : SiteSettings)
  | getSettings
deriving Repr

/-- One operation applied to the table.  A raised `ValueError` leaves the
table unchanged; a `saveFetched` whose pk no longer matches a row is not
reachable in the app and is a no-op here. -/
def applySettingsOp (tbl : SettingsTable) (op : SettingsOp) : SettingsTable :=
  match op with
  | SettingsOp.saveNew inst =>
      match siteSettingsSave tbl { inst with pk := none } with
      | Except.ok t => t
      | Except.error _ => tbl
  | SettingsOp.saveFetched inst =>
      match inst.pk with
      | none => tbl
      | some k =>
          if tbl.any (fun r => r.pk == some k) then
            match siteSettingsSave tbl inst with
            | Except.ok t => t
            | Except.error _ => tbl
          else tbl
  | SettingsOp.getSettings => (get_settings tbl).2

/-- The singleton invariant: at most one row, and any row is the well-known
pk=1 row. -/
def settingsInv (tbl : SettingsTable) : Prop :=
  tbl.length ≤ 1 ∧ ∀ r ∈ tbl, r.pk = some 1

/-! ### Sample data used by concrete witnesses -/

/-- Sample medicine A: selling price ₹90.00 (9000 hundredths). -/
def medA : Medicine := ⟨1, "Amoxicillin", 9000, 9000, 10, "OTC", none, true⟩

/-- Sample medicine B: selling price ₹50.00. -/
def medB : Medicine := ⟨2, "Benadryl", 5000, 5000, 5, "OTC", none, true⟩

/-- Sample medicine whose price was raised to ₹20.00 after a guest added it at
₹10.00. -/
def medStale : Medicine := ⟨3, "Cetirizine", 2000, 2000, 4, "OTC", none, true⟩

/-- Sample database state with an empty order book. -/
def sampleStore : Store := ⟨[medA, medB], [], []⟩

/-- Sample authenticated cart: 2 × medicine A plus 1 × medicine B
(the spec's worked example: total 230.00). -/
def sampleCart : List CartItem := [⟨1, 1, 2⟩, ⟨2, 2, 1⟩]

/-- Sample guest session cart holding `medStale` with the add-time snapshot
price ₹10.00, now different from the live price ₹20.00. -/
def staleSessionCart : SessionCart := [(3, ⟨1, "Cetirizine", 1000, ""⟩)]

/-- Sample orders for tracking: ids 1 and 2 share phone "111", id 3 has
phone "222". -/
def sampleOrders : List Order :=
  [⟨1, none, 23000, "PENDING", "addr", "111", 5⟩,
   ⟨3, none, 100, "PENDING", "addr3", "222", 7⟩,
   ⟨2, none, 5000, "PENDING", "addr2", "111", 9⟩]

/-- Modelled from the spec's words, for comparison only (§4.1 List/Total:
guest unit price "taken from the stale snapshot"): the guest total that WOULD
result if the session's add-time snapshot prices were used.  The code's actual
computation is `guest_cart_total`. -/
def spec_guest_total_snapshot (scart : SessionCart) : Money :=
  (scart.map (fun e => e.snd.price * (e.snd.quantity : Money))).sum

/-! ## Theorems -/

/-- C9: no order-status transition is enforced: for every order in any current
status and every target status, the admin status-update operation sets the
status to the target iff the target is one of the five valid choices
(PENDING, CONFIRMED, SHIPPED, DELIVERED, CANCELLED) — in particular any
transition out of the terminal states DELIVERED and CANCELLED goes through —
and a target outside the choices leaves the status unchanged. -/
theorem c9_status_update_unrestricted (o : Order) (s : String) :
    (admin_update_status o s).status = (if s ∈ STATUS_CHOICES then s else o.status) := by
  by_cases h : s ∈ STATUS_CHOICES <;>
    simp [admin_update_status, List.contains, List.elem_iff, h]

/-- C7: order placement never modifies `Medicine.stock_quantity`: on both the
authenticated and the guest checkout branch the `Medicine` table — and hence
every medicine's stock — is the same after the operation as before it. -/
theorem c7_checkout_preserves_stock :
    (∀ (st : Store) (uid : Nat) (cart : List CartItem) (a p : String) (n : Nat),
       (checkout_auth st uid cart a p n).store.catalog = st.catalog ∧
       ((checkout_auth st uid cart a p n).store.catalog.map Medicine.stock_quantity)
         = st.catalog.map Medicine.stock_quantity) ∧
    (∀ (st : Store) (scart : SessionCart) (a p cn ce : String) (n : Nat),
       (checkout_guest st scart a p cn ce n).store.catalog = st.catalog ∧
       ((checkout_guest st scart a p cn ce n).store.catalog.map Medicine.stock_quantity)
         = st.catalog.map Medicine.stock_quantity) := by
  constructor
  · intro st uid cart a p n
    have h : (checkout_auth st uid cart a p n).store.catalog = st.catalog := by
      simp only [checkout_auth]
      split <;> rfl
    exact ⟨h, by rw [h]⟩
  · intro st scart a p cn ce n
    have h : (checkout_guest st scart a p cn ce n).store.catalog = st.catalog := by
      simp only [checkout_guest]
      split <;> rfl
    exact ⟨h, by rw [h]⟩

/-- C2: checkout on an empty resolved cart creates no order: the authenticated
branch with no cart rows and the guest branch whose session cart resolves to
no lines both leave the whole store (orders included) unchanged and do not
place an order (`placed = none`, the "Your cart is empty!" redirect). -/
theorem c2_empty_cart_checkout_rejected :
    (∀ (st : Store) (uid : Nat) (a p : String) (n : Nat),
       checkout_auth st uid [] a p n = ⟨st, [], none⟩) ∧
    (∀ (st : Store) (scart : SessionCart) (a p cn ce : String) (n : Nat),
       resolveSessionCart st.catalog scart = [] →
       checkout_guest st scart a p cn ce n = ⟨st, scart, none⟩) := by
  constructor
  · intro st uid a p n
    simp [checkout_auth]
  · intro st scart a p cn ce n h
    simp [checkout_guest, h]

/-- Witness for C2 at a concrete input: a guest session cart whose only entry
points at a medicine id absent from the catalog resolves to nothing, and the
checkout POST leaves the store untouched and places no order. -/
theorem c2_witness :
    resolveSessionCart (Store.mk [] [] []).catalog [(5, ⟨2, "X", 100, ""⟩)] = [] ∧
    checkout_guest (Store.mk [] [] []) [(5, ⟨2, "X", 100, ""⟩)] "a" "p" "cn" "ce" 0
      = ⟨Store.mk [] [] [], [(5, ⟨2, "X", 100, ""⟩)], none⟩ :=
  ⟨by decide, c2_empty_cart_checkout_rejected.2 (Store.mk [] [] [])
    [(5, ⟨2, "X", 100, ""⟩)] "a" "p" "cn" "ce" 0 (by decide)⟩

/-- C5 counterexample: removing an absent line from an authenticated cart is
not a silent no-op — `get_object_or_404(CartItem, id=item_id, …)` raises
`Http404` (embedded as `none`), so the request ends in a not-found error
response rather than the claimed error-free redirect.  Concrete input: an
empty database cart and item id 1. -/
theorem c5_counterexample :
    remove_from_cart_auth ([] : List CartItem) 1 = none := rfl

/-- C5 (amended): the remove operation deletes the named cart line when it is
present, preserving every other line, on both the authenticated and the guest
path; when the line is absent the guest path is a silent no-op leaving the
session cart unchanged, while the authenticated path answers with a not-found
(404) error instead of a no-op (the backing cart rows are still unchanged,
since the request aborts before any write). -/
theorem c5_remove_semantics :
    (∀ (cart : List CartItem) (itemId : Nat),
       (cart.find? (fun it => it.id == itemId)).isSome →
       ∃ c, remove_from_cart_auth cart itemId = some c ∧
         (∀ it ∈ c, it.id ≠ itemId) ∧
         (∀ it ∈ cart, it.id ≠ itemId → it ∈ c)) ∧
    (∀ (cart : List CartItem) (itemId : Nat),
       cart.find? (fun it => it.id == itemId) = none →
       remove_from_cart_auth cart itemId = none) ∧
    (∀ (scart : SessionCart) (itemId : Nat),
       (scart.find? (fun e => e.fst == itemId)).isSome →
       (∀ e ∈ remove_from_cart_guest scart itemId, e.fst ≠ itemId) ∧
       (∀ e ∈ scart, e.fst ≠ itemId → e ∈ remove_from_cart_guest scart itemId)) ∧
    (∀ (scart : SessionCart) (itemId : Nat),
       scart.find? (fun e => e.fst == itemId) = none →
       remove_from_cart_guest scart itemId = scart) := by
  refine ⟨?_, ?_, ?_, ?_⟩
  · intro cart itemId h
    obtain ⟨it0, hit0⟩ := Option.isSome_iff_exists.mp h
    refine ⟨cart.filter (fun it => !(it.id == itemId)), ?_, ?_, ?_⟩
    · simp only [remove_from_cart_auth, hit0]
    · intro it hmem
      have := (List.mem_filter.mp hmem).2
      simpa using this
    · intro it hmem hne
      exact List.mem_filter.mpr ⟨hmem, by simpa using hne⟩
  · intro cart itemId h
    simp only [remove_from_cart_auth, h]
  · intro scart itemId h
    constructor
    · intro e hmem
      have hg : remove_from_cart_guest scart itemId
          = scart.filter (fun e => !(e.fst == itemId)) := by
        simp only [remove_from_cart_guest, h, if_true]
      rw [hg] at hmem
      have := (List.mem_filter.mp hmem).2
      simpa using this
    · intro e hmem hne
      have hg : remove_from_cart_guest scart itemId
          = scart.filter (fun e => !(e.fst == itemId)) := by
        simp only [remove_from_cart_guest, h, if_true]
      rw [hg]
      exact List.mem_filter.mpr ⟨hmem, by simpa using hne⟩
  · intro scart itemId h
    simp only [remove_from_cart_guest, h, Option.isSome_none, Bool.false_eq_true,
      if_false]

/-- Witness for C5 (amended) at a concrete input: in an authenticated cart
holding lines 1 and 2, removing line 1 leaves a cart without line 1 in which
line 2 survives. -/
theorem c5_witness :
    (([⟨1, 10, 2⟩, ⟨2, 11, 3⟩] : List CartItem).find?
        (fun it => it.id == 1)).isSome = true ∧
    ∃ c, remove_from_cart_auth [⟨1, 10, 2⟩, ⟨2, 11, 3⟩] 1 = some c ∧
      (∀ it ∈ c, it.id ≠ 1) ∧
      (∀ it ∈ ([⟨1, 10, 2⟩, ⟨2, 11, 3⟩] : List CartItem), it.id ≠ 1 → it ∈ c) :=
  ⟨by decide, c5_remove_semantics.1 [⟨1, 10, 2⟩, ⟨2, 11, 3⟩] 1 (by decide)⟩

/-- C4: updating a present cart line with a posted integer `q` sets the line's
quantity to exactly `q` when `q > 0` (all other lines untouched, in both
directions), and removes the line when `q ≤ 0`; this holds on the
database-backed and on the session-backed cart alike. -/
theorem c4_update_quantity :
    (∀ (cart : List CartItem) (itemId : Nat) (q : Int),
       (cart.find? (fun it => it.id == itemId)).isSome →
       (0 < q →
         ∃ c, update_cart_item_auth cart itemId q = some c ∧
           (∃ it ∈ c, it.id = itemId) ∧
           (∀ it ∈ c, it.id = itemId → (it.quantity : Int) = q) ∧
           (∀ it ∈ c, it.id ≠ itemId → it ∈ cart) ∧
           (∀ it ∈ cart, it.id ≠ itemId → it ∈ c)) ∧
       (q ≤ 0 →
         ∃ c, update_cart_item_auth cart itemId q = some c ∧
           (∀ it ∈ c, it.id ≠ itemId) ∧
           (∀ it ∈ cart, it.id ≠ itemId → it ∈ c))) ∧
    (∀ (scart : SessionCart) (itemId : Nat) (q : Int),
       (scart.find? (fun e => e.fst == itemId)).isSome →
       (0 < q →
         (∃ e ∈ update_cart_item_guest scart itemId q, e.fst = itemId) ∧
         (∀ e ∈ update_cart_item_guest scart itemId q,
            e.fst = itemId → e.snd.quantity = q) ∧
         (∀ e ∈ update_cart_item_guest scart itemId q, e.fst ≠ itemId → e ∈ scart) ∧
         (∀ e ∈ scart, e.fst ≠ itemId → e ∈ update_cart_item_guest scart itemId q)) ∧
       (q ≤ 0 →
         (∀ e ∈ update_cart_item_guest scart itemId q, e.fst ≠ itemId) ∧
         (∀ e ∈ scart, e.fst ≠ itemId → e ∈ update_cart_item_guest scart itemId q))) := by
  constructor
  · intro cart itemId q h
    obtain ⟨it0, hit0⟩ := Option.isSome_iff_exists.mp h
    constructor
    · intro hq
      refine ⟨cart.map (fun it =>
        if it.id == itemId then { it with quantity := q.toNat } else it), ?_, ?_, ?_, ?_, ?_⟩
      · simp only [update_cart_item_auth, hit0, if_pos hq]
      · refine ⟨{ it0 with quantity := q.toNat }, ?_, ?_⟩
        · have hmem := List.mem_of_find?_eq_some hit0
          have hp : (it0.id == itemId) = true :=
            List.find?_some (p := fun it : CartItem => it.id == itemId) hit0
          have : (fun it => if it.id == itemId then
              { it with quantity := q.toNat } else it) it0
              = { it0 with quantity := q.toNat } := by simp [hp]
          exact this ▸ List.mem_map_of_mem _ hmem
        · have hp := List.find?_some hit0
          simpa using hp
      · intro it hmem hid
        obtain ⟨a, _, ha⟩ := List.mem_map.mp hmem
        by_cases hcase : (a.id == itemId) = true
        · rw [if_pos hcase] at ha
          rw [← ha]
          exact Int.toNat_of_nonneg hq.le
        · rw [if_neg hcase] at ha
          exact absurd (ha ▸ hid) (by simpa using hcase)
      · intro it hmem hid
        obtain ⟨a, hamem, ha⟩ := List.mem_map.mp hmem
        by_cases hcase : (a.id == itemId) = true
        · rw [if_pos hcase] at ha
          exact absurd (ha ▸ rfl : it.id = a.id) (by
            have : a.id = itemId := by simpa using hcase
            rw [this]; exact fun hcontra => hid hcontra)
        · rw [if_neg hcase] at ha
          exact ha ▸ hamem
      · intro it hmem hid
        have : (fun it => if it.id == itemId then
            { it with quantity := q.toNat } else it) it = it := by
          simp [hid]
        exact this ▸ List.mem_map_of_mem _ hmem
    · intro hq
      refine ⟨cart.filter (fun it => !(it.id == itemId)), ?_, ?_, ?_⟩
      · simp only [update_cart_item_auth, hit0, if_neg (not_lt.mpr hq)]
      · intro it hmem
        have := (List.mem_filter.mp hmem).2
        simpa using this
      · intro it hmem hne
        exact List.mem_filter.mpr ⟨hmem, by simpa using hne⟩
  · intro scart itemId q h
    have hguest : ∀ q' : Int, 0 < q' → update_cart_item_guest scart itemId q'
        = scart.map (fun e =>
            if e.fst == itemId then (e.fst, { e.snd with quantity := q' }) else e) := by
      intro q' hq'
      simp only [update_cart_item_guest, h, if_true, if_pos hq']
    constructor
    · intro hq
      rw [hguest q hq]
      obtain ⟨e0, he0⟩ := Option.isSome_iff_exists.mp h
      refine ⟨?_, ?_, ?_, ?_⟩
      · refine ⟨(e0.fst, { e0.snd with quantity := q }), ?_, ?_⟩
        · have hmem := List.mem_of_find?_eq_some he0
          have hp : (e0.fst == itemId) = true :=
            List.find?_some (p := fun e : Nat × SessionItem => e.fst == itemId) he0
          have : (fun e => if e.fst == itemId then
              (e.fst, { e.snd with quantity := q }) else e) e0
              = (e0.fst, { e0.snd with quantity := q }) := by simp [hp]
          exact this ▸ List.mem_map_of_mem _ hmem
        · have hp := List.find?_some he0
          simpa using hp
      · intro e hmem hid
        obtain ⟨a, _, ha⟩ := List.mem_map.mp hmem
        by_cases hcase : (a.fst == itemId) = true
        · rw [if_pos hcase] at ha
          rw [← ha]
        · rw [if_neg hcase] at ha
          exact absurd (ha ▸ hid) (by simpa using hcase)
      · intro e hmem hid
        obtain ⟨a, hamem, ha⟩ := List.mem_map.mp hmem
        by_cases hcase : (a.fst == itemId) = true
        · rw [if_pos hcase] at ha
          have : e.fst = itemId := by rw [← ha]; simpa using hcase
          exact absurd this hid
        · rw [if_neg hcase] at ha
          exact ha ▸ hamem
      · intro e hmem hid
        have : (fun e => if e.fst == itemId then
            (e.fst, { e.snd with quantity := q }) else e) e = e := by
          simp [hid]
        exact this ▸ List.mem_map_of_mem _ hmem
    · intro hq
      have hg : update_cart_item_guest scart itemId q
          = scart.filter (fun e => !(e.fst == itemId)) := by
        simp only [update_cart_item_guest, h, if_true, if_neg (not_lt.mpr hq)]
      constructor
      · intro e hmem
        rw [hg] at hmem
        have := (List.mem_filter.mp hmem).2
        simpa using this
      · intro e hmem hne
        rw [hg]
        exact List.mem_filter.mpr ⟨hmem, by simpa using hne⟩

/-- Witness for C4 at a concrete input: in a database cart whose line 1 holds
quantity 2, posting quantity 7 rewrites that line to quantity 7 and keeps
line 2. -/
theorem c4_witness :
    (([⟨1, 10, 2⟩, ⟨2, 11, 3⟩] : List CartItem).find?
        (fun it => it.id == 1)).isSome = true ∧ (0 : Int) < 7 ∧
    ∃ c, update_cart_item_auth [⟨1, 10, 2⟩, ⟨2, 11, 3⟩] 1 7 = some c ∧
      (∃ it ∈ c, it.id = 1) ∧
      (∀ it ∈ c, it.id = 1 → (it.quantity : Int) = 7) ∧
      (∀ it ∈ c, it.id ≠ 1 → it ∈ ([⟨1, 10, 2⟩, ⟨2, 11, 3⟩] : List CartItem)) ∧
      (∀ it ∈ ([⟨1, 10, 2⟩, ⟨2, 11, 3⟩] : List CartItem), it.id ≠ 1 → it ∈ c) :=
  ⟨by decide, by decide,
    (c4_update_quantity.1 [⟨1, 10, 2⟩, ⟨2, 11, 3⟩] 1 7 (by decide)).1 (by decide)⟩

lemma add_to_cart_auth_fresh (cat : Catalog) (cart : List CartItem) (mid : Nat)
    (m : Medicine) (hm : findActiveMedicine cat mid = some m)
    (hno : cart.find? (fun it => it.medicineId == mid) = none) :
    add_to_cart_auth cat cart mid = some (cart ++ [⟨freshItemId cart, mid, 1⟩]) := by
  simp only [add_to_cart_auth, hm, hno]

lemma add_to_cart_auth_append (cat : Catalog) (cart : List CartItem) (mid j q : Nat)
    (m : Medicine) (hm : findActiveMedicine cat mid = some m)
    (hno : cart.find? (fun it => it.medicineId == mid) = none) :
    add_to_cart_auth cat (cart ++ [⟨j, mid, q⟩]) mid
      = some (cart ++ [⟨j, mid, q + 1⟩]) := by
  have hfind : (cart ++ [(⟨j, mid, q⟩ : CartItem)]).find?
      (fun it => it.medicineId == mid) = some ⟨j, mid, q⟩ := by
    rw [List.find?_append, hno]
    simp [List.find?]
  simp only [add_to_cart_auth, hm, hfind]
  congr 1
  rw [List.map_append]
  have hall := List.find?_eq_none.mp hno
  congr 1
  · have : ∀ it ∈ cart, (fun it : CartItem =>
        if it.medicineId == mid then { it with quantity := it.quantity + 1 } else it) it
        = id it := by
      intro it hit
      have hfalse := hall it hit
      simp only [id]
      rw [if_neg hfalse]
    rw [List.map_congr_left this, List.map_id]
  · simp

lemma addN_auth_spec (cat : Catalog) (cart : List CartItem) (mid : Nat)
    (m : Medicine) (hm : findActiveMedicine cat mid = some m)
    (hno : cart.find? (fun it => it.medicineId == mid) = none) :
    ∀ n : Nat, addN_auth cat mid (n + 1) cart
      = some (cart ++ [⟨freshItemId cart, mid, n + 1⟩]) := by
  intro n
  induction n with
  | zero =>
      simp only [addN_auth]
      exact add_to_cart_auth_fresh cat cart mid m hm hno
  | succ k ih =>
      simp only [addN_auth] at ih ⊢
      rw [ih]
      exact add_to_cart_auth_append cat cart mid (freshItemId cart) (k + 1) m hm hno

lemma add_to_cart_guest_fresh (cat : Catalog) (scart : SessionCart) (mid : Nat)
    (m : Medicine) (hm : findActiveMedicine cat mid = some m)
    (hno : scart.find? (fun e => e.fst == mid) = none) :
    add_to_cart_guest cat scart mid
      = some (scart ++ [(mid, ⟨1, m.name, m.price, m.image.getD ""⟩)]) := by
  simp only [add_to_cart_guest, hm, hno, Option.isSome_none, Bool.false_eq_true,
    if_false]

lemma add_to_cart_guest_append (cat : Catalog) (scart : SessionCart) (mid : Nat)
    (q : Int) (nm : String) (pr : Money) (im : String)
    (m : Medicine) (hm : findActiveMedicine cat mid = some m)
    (hno : scart.find? (fun e => e.fst == mid) = none) :
    add_to_cart_guest cat (scart ++ [(mid, ⟨q, nm, pr, im⟩)]) mid
      = some (scart ++ [(mid, ⟨q + 1, nm, pr, im⟩)]) := by
  have hfind : (scart ++ [(mid, (⟨q, nm, pr, im⟩ : SessionItem))]).find?
      (fun e => e.fst == mid) = some (mid, ⟨q, nm, pr, im⟩) := by
    rw [List.find?_append, hno]
    simp [List.find?]
  simp only [add_to_cart_guest, hm, hfind, Option.isSome_some, if_true]
  congr 1
  rw [List.map_append]
  have hall := List.find?_eq_none.mp hno
  congr 1
  · have : ∀ e ∈ scart, (fun e : Nat × SessionItem =>
        if e.fst == mid then (e.fst, { e.snd with quantity := e.snd.quantity + 1 })
        else e) e = id e := by
      intro e he
      have hfalse := hall e he
      simp only [id]
      rw [if_neg hfalse]
    rw [List.map_congr_left this, List.map_id]
  · simp

/-- C3: a sequence of `n + 1` add-to-cart calls for the same (actor, medicine)
pair, starting from a cart that has no line for that medicine, produces a cart
that is the original cart plus exactly one new line for the medicine with
quantity `n + 1`: each add increments the existing line by 1, and the very
first add inserts the line at quantity 1 — on the authenticated
(database-cart) path and on the guest (session-cart) path alike. -/
theorem c3_add_quantity_equals_call_count :
    (∀ (cat : Catalog) (cart : List CartItem) (mid : Nat) (m : Medicine) (n : Nat),
       findActiveMedicine cat mid = some m →
       cart.find? (fun it => it.medicineId == mid) = none →
       addN_auth cat mid (n + 1) cart
         = some (cart ++ [⟨freshItemId cart, mid, n + 1⟩])) ∧
    (∀ (cat : Catalog) (scart : SessionCart) (mid : Nat) (m : Medicine) (n : Nat),
       findActiveMedicine cat mid = some m →
       scart.find? (fun e => e.fst == mid) = none →
       addN_guest cat mid (n + 1) scart
         = some (scart ++ [(mid, ⟨(n : Int) + 1, m.name, m.price, m.image.getD ""⟩)])) := by
  constructor
  · intro cat cart mid m n hm hno
    exact addN_auth_spec cat cart mid m hm hno n
  · intro cat scart mid m n hm hno
    induction n with
    | zero =>
        simp only [addN_guest, Int.natCast_zero, Int.zero_add]
        exact add_to_cart_guest_fresh cat scart mid m hm hno
    | succ k ih =>
        simp only [addN_guest] at ih ⊢
        rw [ih]
        have hstep := add_to_cart_guest_append cat scart mid ((k : Int) + 1)
          m.name m.price (m.image.getD "") m hm hno
        have hq : ((k : Int) + 1) + 1 = ((k + 1 : Nat) : Int) + 1 := by
          push_cast
          ring
        rw [hq] at hstep
        exact hstep

/-- Witness for C3 at a concrete input: three add-to-cart calls for medicine 1
by an authenticated user who starts with an empty cart leave a single line of
quantity 3. -/
theorem c3_witness :
    findActiveMedicine [⟨1, "Amoxicillin", 9000, 9000, 10, "OTC", none, true⟩] 1
      = some ⟨1, "Amoxicillin", 9000, 9000, 10, "OTC", none, true⟩ ∧
    ([] : List CartItem).find? (fun it => it.medicineId == 1) = none ∧
    addN_auth [⟨1, "Amoxicillin", 9000, 9000, 10, "OTC", none, true⟩] 1 3 []
      = some [⟨1, 1, 3⟩] :=
  ⟨by decide, by decide, by
    have h := c3_add_quantity_equals_call_count.1
      [⟨1, "Amoxicillin", 9000, 9000, 10, "OTC", none, true⟩] [] 1
      ⟨1, "Amoxicillin", 9000, 9000, 10, "OTC", none, true⟩ 2 (by decide) (by decide)
    simpa [freshItemId] using h⟩

/-- C1: a checkout POST on a non-empty resolved cart — the database cart of an
authenticated user, or a guest session cart resolved against the live medicine
table — creates exactly one new `Order` with status PENDING whose
`total_amount` is the sum over the cart lines of quantity times unit price,
creates exactly one `OrderItem` per cart line carrying the price snapshotted
at that moment (one `Forall₂`-related item per line, appended to the item
table), and leaves the source cart empty (database cart rows deleted, session
cart reset to the empty mapping); guest orders concatenate name and email
into the shipping-address text. -/
theorem c1_checkout_places_order :
    (∀ (st : Store) (uid : Nat) (cart : List CartItem) (addr phone : String) (now : Nat),
       cart ≠ [] →
       ∃ o newIts,
         (checkout_auth st uid cart addr phone now).store.orders = st.orders ++ [o] ∧
         o.status = "PENDING" ∧
         o.userId = some uid ∧
         o.total_amount
           = (cart.map (fun it =>
               (it.quantity : Money) * medPriceD st.catalog it.medicineId)).sum ∧
         (checkout_auth st uid cart addr phone now).store.orderItems
           = st.orderItems ++ newIts ∧
         List.Forall₂ (fun (it : CartItem) (oi : OrderItem) =>
             oi.orderId = o.id ∧ oi.medicineId = it.medicineId ∧
             oi.quantity = (it.quantity : Int) ∧
             oi.price = medPriceD st.catalog it.medicineId) cart newIts ∧
         (checkout_auth st uid cart addr phone now).cart = [] ∧
         (checkout_auth st uid cart addr phone now).placed = some o.id) ∧
    (∀ (st : Store) (scart : SessionCart) (addr phone cn ce : String) (now : Nat),
       resolveSessionCart st.catalog scart ≠ [] →
       ∃ o newIts,
         (checkout_guest st scart addr phone cn ce now).store.orders
           = st.orders ++ [o] ∧
         o.status = "PENDING" ∧
         o.userId = none ∧
         o.shipping_address = cn ++ "\n" ++ ce ++ "\n" ++ addr ∧
         o.total_amount
           = ((resolveSessionCart st.catalog scart).map
               (fun p => p.1.price * (p.2 : Money))).sum ∧
         (checkout_guest st scart addr phone cn ce now).store.orderItems
           = st.orderItems ++ newIts ∧
         List.Forall₂ (fun (p : Medicine × Int) (oi : OrderItem) =>
             oi.orderId = o.id ∧ oi.medicineId = p.1.id ∧
             oi.quantity = p.2 ∧ oi.price = p.1.price)
           (resolveSessionCart st.catalog scart) newIts ∧
         (checkout_guest st scart addr phone cn ce now).sessionCart = [] ∧
         (checkout_guest st scart addr phone cn ce now).placed = some o.id) := by
  constructor
  · intro st uid cart addr phone now h
    have hfalse : ¬(cart.isEmpty = true) := fun hc => h (List.isEmpty_iff.mp hc)
    have hck : checkout_auth st uid cart addr phone now
        = ⟨⟨st.catalog,
            st.orders ++ [⟨freshOrderId st.orders, some uid,
              cartTotalPrice st.catalog cart, "PENDING", addr, phone, now⟩],
            st.orderItems ++ cart.map (fun it =>
              OrderItem.mk (freshOrderId st.orders) it.medicineId (it.quantity : Int)
                (medPriceD st.catalog it.medicineId))⟩,
          [], some (freshOrderId st.orders)⟩ := by
      simp only [checkout_auth]
      rw [if_neg hfalse]
    refine ⟨⟨freshOrderId st.orders, some uid, cartTotalPrice st.catalog cart,
        "PENDING", addr, phone, now⟩,
      cart.map (fun it =>
        OrderItem.mk (freshOrderId st.orders) it.medicineId (it.quantity : Int)
          (medPriceD st.catalog it.medicineId)),
      by rw [hck], rfl, rfl, ?_, by rw [hck], ?_, by rw [hck], by rw [hck]⟩
    · rfl
    · exact List.forall₂_map_right_iff.mpr
        (List.forall₂_same.mpr (fun it _ => ⟨rfl, rfl, rfl, rfl⟩))
  · intro st scart addr phone cn ce now h
    have hfalse : ¬((resolveSessionCart st.catalog scart).isEmpty = true) :=
      fun hc => h (List.isEmpty_iff.mp hc)
    have hck : checkout_guest st scart addr phone cn ce now
        = ⟨⟨st.catalog,
            st.orders ++ [⟨freshOrderId st.orders, none,
              guest_cart_total st.catalog scart, "PENDING",
              cn ++ "\n" ++ ce ++ "\n" ++ addr, phone, now⟩],
            st.orderItems ++ (resolveSessionCart st.catalog scart).map (fun p =>
              OrderItem.mk (freshOrderId st.orders) p.1.id p.2 p.1.price)⟩,
          [], some (freshOrderId st.orders)⟩ := by
      simp only [checkout_guest]
      rw [if_neg hfalse]
    refine ⟨⟨freshOrderId st.orders, none, guest_cart_total st.catalog scart,
        "PENDING", cn ++ "\n" ++ ce ++ "\n" ++ addr, phone, now⟩,
      (resolveSessionCart st.catalog scart).map (fun p =>
        OrderItem.mk (freshOrderId st.orders) p.1.id p.2 p.1.price),
      by rw [hck], rfl, rfl, rfl, ?_, by rw [hck], ?_, by rw [hck], by rw [hck]⟩
    · rfl
    · exact List.forall₂_map_right_iff.mpr
        (List.forall₂_same.mpr (fun p _ => ⟨rfl, rfl, rfl, rfl⟩))

/-- Witness for C1 at the spec's worked example: an authenticated cart with
2 × ₹90.00 and 1 × ₹50.00 checks out to one PENDING order of total ₹230.00,
one order item per line, and an emptied cart. -/
theorem c1_witness :
    sampleCart ≠ [] ∧
    ∃ o newIts,
      (checkout_auth sampleStore 7 sampleCart "addr" "phone" 0).store.orders
        = sampleStore.orders ++ [o] ∧
      o.status = "PENDING" ∧
      o.userId = some 7 ∧
      o.total_amount
        = (sampleCart.map (fun it =>
            (it.quantity : Money) * medPriceD sampleStore.catalog it.medicineId)).sum ∧
      (checkout_auth sampleStore 7 sampleCart "addr" "phone" 0).store.orderItems
        = sampleStore.orderItems ++ newIts ∧
      List.Forall₂ (fun (it : CartItem) (oi : OrderItem) =>
          oi.orderId = o.id ∧ oi.medicineId = it.medicineId ∧
          oi.quantity = (it.quantity : Int) ∧
          oi.price = medPriceD sampleStore.catalog it.medicineId) sampleCart newIts ∧
      (checkout_auth sampleStore 7 sampleCart "addr" "phone" 0).cart = [] ∧
      (checkout_auth sampleStore 7 sampleCart "addr" "phone" 0).placed = some o.id :=
  ⟨by decide,
    c1_checkout_places_order.1 sampleStore 7 sampleCart "addr" "phone" 0 (by decide)⟩

/-- C6 counterexample: the guest total is NOT taken from the session snapshot.
Concrete input: the guest added medicine 3 when its price was ₹10.00 (snapshot
stored in the session), the live price is now ₹20.00, quantity 1 —
`cart_detail` computes ₹20.00 (`medicine.price * item['quantity']`,
views.py:118), not the snapshot total ₹10.00 the claim predicts. -/
theorem c6_counterexample :
    guest_cart_total [medStale] staleSessionCart = 2000 ∧
    spec_guest_total_snapshot staleSessionCart = 1000 ∧
    guest_cart_total [medStale] staleSessionCart
      ≠ spec_guest_total_snapshot staleSessionCart := by
  refine ⟨by decide, by decide, by decide⟩

/-- C6 (amended): the list/total operation computes
total = Σ(quantity × unit price) with the unit price read LIVE from the
`Medicine` record on both paths — for logged-in (database) carts via
`Cart.get_total_price`, and for guest carts too, where the add-time session
snapshot price never influences the total (rewriting every snapshot price
arbitrarily leaves the total unchanged); guest cart lines whose medicine id no
longer exists are silently skipped during the total computation rather than
reported as an error. -/
theorem c6_total_uses_live_price :
    (∀ (cat : Catalog) (items : List CartItem),
       cart_detail_total_auth cat (some items)
         = (items.map (fun it =>
             (it.quantity : Money) * medPriceD cat it.medicineId)).sum) ∧
    (∀ (cat : Catalog) (scart : SessionCart) (f : Nat × SessionItem → Money),
       guest_cart_total cat
           (scart.map (fun e => (e.fst, { e.snd with price := f e })))
         = guest_cart_total cat scart) ∧
    (∀ (cat : Catalog) (s1 s2 : SessionCart) (k : Nat) (it : SessionItem),
       findMedicine cat k = none →
       guest_cart_total cat (s1 ++ (k, it) :: s2)
         = guest_cart_total cat (s1 ++ s2)) := by
  refine ⟨?_, ?_, ?_⟩
  · intro cat items
    rfl
  · intro cat scart f
    simp only [guest_cart_total, resolveSessionCart, List.filterMap_map]
    have heq := List.filterMap_congr
      (f := (fun e : Nat × SessionItem =>
          Option.map (fun m => (m, e.2.quantity)) (findMedicine cat e.1)) ∘
        (fun e : Nat × SessionItem => (e.fst, { e.snd with price := f e })))
      (g := fun e : Nat × SessionItem =>
          Option.map (fun m => (m, e.2.quantity)) (findMedicine cat e.1))
      (l := scart) (fun e _ => rfl)
    rw [heq]
  · intro cat s1 s2 k it hk
    simp only [guest_cart_total, resolveSessionCart, List.filterMap_append,
      List.filterMap_cons, hk, Option.map_none']

/-- Witness for C6 (amended) at a concrete input: a guest cart entry whose
medicine id 9 is absent from the catalog contributes nothing — the total with
the dangling entry equals the total without it. -/
theorem c6_witness :
    findMedicine [medStale] 9 = none ∧
    guest_cart_total [medStale] ([(3, ⟨1, "Cetirizine", 1000, ""⟩)]
        ++ (9, ⟨5, "Gone", 700, ""⟩) :: [])
      = guest_cart_total [medStale] ([(3, ⟨1, "Cetirizine", 1000, ""⟩)] ++ []) :=
  ⟨by decide, c6_total_uses_live_price.2.2 [medStale]
    [(3, ⟨1, "Cetirizine", 1000, ""⟩)] [] 9 ⟨5, "Gone", 700, ""⟩ (by decide)⟩

lemma track_by_phone_mem (orders : List Order) (phone : String) (o : Order) :
    o ∈ track_by_phone orders phone ↔ o ∈ orders ∧ o.phone_number = phone := by
  unfold track_by_phone
  rw [List.Perm.mem_iff (List.perm_insertionSort _ _), List.mem_filter]
  simp

/-- C8: the phone-only tracking lookup returns exactly the orders whose
`phone_number` equals the given number (membership in both directions),
ordered newest-first by creation time, with the not-found message exactly when
no order matches; the phone+id lookup returns exactly the one order matching
both fields (sound, and complete under primary-key uniqueness of order ids)
and reports not-found exactly when no order matches the pair. -/
theorem c8_track_order_lookup :
    (∀ (orders : List Order) (phone : String) (o : Order),
       o ∈ track_by_phone orders phone ↔ o ∈ orders ∧ o.phone_number = phone) ∧
    (∀ (orders : List Order) (phone : String),
       List.Sorted (fun a b => b.created_at ≤ a.created_at)
         (track_by_phone orders phone)) ∧
    (∀ (orders : List Order) (phone : String),
       ((track_by_phone_view orders phone).2.isSome = true)
         ↔ ¬∃ o ∈ orders, o.phone_number = phone) ∧
    (∀ (orders : List Order) (oid : Nat) (phone : String) (o : Order),
       track_specific orders oid phone = some o →
       o ∈ orders ∧ o.id = oid ∧ o.phone_number = phone) ∧
    (∀ (orders : List Order) (oid : Nat) (phone : String) (o : Order),
       (orders.map Order.id).Nodup → o ∈ orders → o.id = oid →
       o.phone_number = phone → track_specific orders oid phone = some o) ∧
    (∀ (orders : List Order) (oid : Nat) (phone : String),
       track_specific orders oid phone = none
         ↔ ¬∃ o ∈ orders, o.id = oid ∧ o.phone_number = phone) := by
  refine ⟨track_by_phone_mem, ?_, ?_, ?_, ?_, ?_⟩
  · intro orders phone
    exact List.sorted_insertionSort _ _
  · intro orders phone
    simp only [track_by_phone_view]
    by_cases h : (track_by_phone orders phone).isEmpty = true
    · rw [if_pos h]
      simp only [Option.isSome_some, true_iff]
      rintro ⟨o, ho, hp⟩
      have hmem := (track_by_phone_mem orders phone o).mpr ⟨ho, hp⟩
      rw [List.isEmpty_iff.mp h] at hmem
      exact absurd hmem (List.not_mem_nil o)
    · rw [if_neg h]
      have hne : track_by_phone orders phone ≠ [] := by
        intro hnil
        exact h (by rw [hnil]; rfl)
      obtain ⟨o, ho⟩ := List.exists_mem_of_ne_nil _ hne
      have := (track_by_phone_mem orders phone o).mp ho
      simp only [Option.isSome_none, Bool.false_eq_true, false_iff, not_not]
      exact ⟨o, this.1, this.2⟩
  · intro orders oid phone o h
    have hmem := List.mem_of_find?_eq_some h
    have hp := List.find?_some h
    simp only [Bool.and_eq_true, beq_iff_eq] at hp
    exact ⟨hmem, hp.1, hp.2⟩
  · intro orders oid phone o hnd hmem hid hph
    have hsome : (orders.find?
        (fun o => o.id == oid && o.phone_number == phone)).isSome :=
      List.find?_isSome.mpr ⟨o, hmem, by simp [hid, hph]⟩
    obtain ⟨o', ho'⟩ := Option.isSome_iff_exists.mp hsome
    have hmem' := List.mem_of_find?_eq_some ho'
    have hp' := List.find?_some ho'
    simp only [Bool.and_eq_true, beq_iff_eq] at hp'
    have heq : o' = o :=
      List.inj_on_of_nodup_map hnd hmem' hmem (by rw [hp'.1, hid])
    rw [track_specific, ho', heq]
  · intro orders oid phone
    rw [track_specific, List.find?_eq_none]
    simp

/-- Witness for C8 at a concrete input: among three sample orders with unique
ids, the lookup for order id 2 and phone "111" returns exactly that order. -/
theorem c8_witness :
    (sampleOrders.map Order.id).Nodup ∧
    (⟨2, none, 5000, "PENDING", "addr2", "111", 9⟩ : Order) ∈ sampleOrders ∧
    track_specific sampleOrders 2 "111"
      = some ⟨2, none, 5000, "PENDING", "addr2", "111", 9⟩ :=
  ⟨by decide, by decide,
    c8_track_order_lookup.2.2.2.2.1 sampleOrders 2 "111"
      ⟨2, none, 5000, "PENDING", "addr2", "111", 9⟩
      (by decide) (by decide) rfl rfl⟩

lemma settingsInv_preserved (tbl : SettingsTable) (op : SettingsOp)
    (h : settingsInv tbl) : settingsInv (applySettingsOp tbl op) := by
  obtain ⟨hlen, hpk⟩ := h
  cases op with
  | saveNew inst =>
      simp only [applySettingsOp]
      cases tbl with
      | nil => simp [siteSettingsSave, settingsInv, nextSettingsPk]
      | cons a tl =>
          simp only [siteSettingsSave, Option.isNone_some, List.isEmpty_cons,
            Bool.not_false, Bool.and_true]
          exact ⟨hlen, hpk⟩
  | saveFetched inst =>
      cases hpki : inst.pk with
      | none =>
          simp only [applySettingsOp, hpki]
          exact ⟨hlen, hpk⟩
      | some k =>
          simp only [applySettingsOp, hpki]
          by_cases hany : tbl.any (fun r => r.pk == some k) = true
          · rw [if_pos hany]
            have hsave : siteSettingsSave tbl inst
                = Except.ok (tbl.map (fun r => if r.pk == some k then inst else r)) := by
              simp [siteSettingsSave, hpki, hany]
            rw [hsave]
            refine ⟨by simpa using hlen, ?_⟩
            intro r hr
            obtain ⟨a, ha, hfa⟩ := List.mem_map.mp hr
            by_cases hc : (a.pk == some k) = true
            · rw [if_pos hc] at hfa
              have hak : a.pk = some k := by simpa using hc
              have ha1 : a.pk = some 1 := hpk a ha
              have hk1 : k = 1 := by
                rw [hak] at ha1
                exact Option.some.inj ha1
              rw [← hfa, hpki, hk1]
            · rw [if_neg hc] at hfa
              rw [← hfa]
              exact hpk a ha
          · rw [if_neg hany]
            exact ⟨hlen, hpk⟩
  | getSettings =>
      simp only [applySettingsOp]
      cases hf : tbl.find? (fun r => r.pk == some 1) with
      | some r =>
          simp only [get_settings, hf]
          exact ⟨hlen, hpk⟩
      | none =>
          have htbl : tbl = [] := by
            cases tbl with
            | nil => rfl
            | cons a tl =>
                have h1 := hpk a (List.mem_cons_self a tl)
                have h2 := List.find?_eq_none.mp hf a (List.mem_cons_self a tl)
                exact absurd (by simp [h1]) h2
          subst htbl
          simp [get_settings, settingsInv]

/-- C10: at most one `SiteSettings` record ever exists.  `save` raises the
`ValueError` whenever a second, new (pk-less) instance would be saved while
any record exists; `get_settings` always hands back the record with the
well-known identifier pk=1, touching nothing when it is present and creating
exactly it when absent; and every sequence of the operations the codebase
performs (saving a new instance, saving a fetched instance, `get_settings`),
starting from the empty table, preserves the single-instance invariant. -/
theorem c10_sitesettings_singleton :
    (∀ (tbl : SettingsTable) (inst : SiteSettings),
       inst.pk = none → tbl ≠ [] →
       siteSettingsSave tbl inst
         = Except.error "Only one SiteSettings instance is allowed") ∧
    (∀ tbl : SettingsTable, (get_settings tbl).1.pk = some 1) ∧
    (∀ tbl : SettingsTable, (∃ r ∈ tbl, r.pk = some 1) →
       (get_settings tbl).2 = tbl ∧ (get_settings tbl).1 ∈ tbl) ∧
    (∀ tbl : SettingsTable, (¬∃ r ∈ tbl, r.pk = some 1) →
       (get_settings tbl).2 = tbl ++ [(get_settings tbl).1]) ∧
    (∀ ops : List SettingsOp, settingsInv (ops.foldl applySettingsOp [])) := by
  refine ⟨?_, ?_, ?_, ?_, ?_⟩
  · intro tbl inst hpk hne
    have hempty : tbl.isEmpty = false := by
      cases tbl with
      | nil => exact absurd rfl hne
      | cons a tl => rfl
    have hcond : (inst.pk.isNone && !tbl.isEmpty) = true := by
      rw [hpk, hempty]
      rfl
    simp only [siteSettingsSave, hcond, if_true]
  · intro tbl
    cases hf : tbl.find? (fun r => r.pk == some 1) with
    | none => simp [get_settings, hf]
    | some r =>
        simp only [get_settings, hf]
        have hp := List.find?_some hf
        simpa using hp
  · intro tbl hex
    obtain ⟨r, hr, hrpk⟩ := hex
    have hsome : (tbl.find? (fun r => r.pk == some 1)).isSome :=
      List.find?_isSome.mpr ⟨r, hr, by simp [hrpk]⟩
    obtain ⟨r', hr'⟩ := Option.isSome_iff_exists.mp hsome
    simp only [get_settings, hr']
    exact ⟨by trivial, List.mem_of_find?_eq_some hr'⟩
  · intro tbl hnone
    have hf : tbl.find? (fun r => r.pk == some 1) = none :=
      List.find?_eq_none.mpr (fun r hr hbeq => hnone ⟨r, hr, by simpa using hbeq⟩)
    simp only [get_settings, hf]
  · have hstep : ∀ (ops : List SettingsOp) (tbl : SettingsTable),
        settingsInv tbl → settingsInv (ops.foldl applySettingsOp tbl) := by
      intro ops
      induction ops with
      | nil => intro tbl h; exact h
      | cons op rest ih =>
          intro tbl h
          exact ih _ (settingsInv_preserved tbl op h)
    intro ops
    exact hstep ops [] ⟨by simp, by simp⟩

/-- Witness for C10 at a concrete input: with the pk=1 settings row present,
saving a fresh (pk-less) instance raises the singleton `ValueError`. -/
theorem c10_witness :
    blankSettings.pk = none ∧
    ([{ blankSettings with pk := some 1 }] : SettingsTable) ≠ [] ∧
    siteSettingsSave [{ blankSettings with pk := some 1 }] blankSettings
      = Except.error "Only one SiteSettings instance is allowed" :=
  ⟨rfl, by decide,
    c10_sitesettings_singleton.1 [{ blankSettings with pk := some 1 }]
      blankSettings rfl (by decide)⟩

end Medshop
